import Mathlib

/-!
# Verification of the razerlinux event remapping engine

Shallow embedding of the event translator (`remap_events`), the autoscroll
gesture state machine (the autoscroll block of `run_remapper_loop`), the
scroll-speed function (`calculate_scroll_speed`) and the X11 scroll-target
classifier (`X11ScrollDetector::should_autoscroll`), all from `src/remap.rs`,
`src/display_backend/x11.rs`, `src/display_backend/heuristic.rs` and
`src/display_backend/null.rs`.

Conventions: Rust `u16`/`i32`/`u64` values are modelled as `Nat`/`Int`
(overflow never matters at the magnitudes involved: key codes < 2^16, pixel
distances and timing values are small); `Instant` timestamps are modelled as
millisecond counts (`Nat`), with `t.elapsed()` at current time `now` equal to
`now - t`; `BTreeMap`/`HashMap` lookup is modelled as a function into
`Option`; log lines and overlay-channel commands are side effects outside the
synthesized input stream and are not part of the embedded output.
-/

namespace Razer

/-- Event types of the evdev events the engine handles
(`EventType::KEY`, `EventType::RELATIVE`, `EventType::SYNCHRONIZATION`). -/
inductive EvType where
  | key
  | relative
  | synchronization
  deriving DecidableEq, Repr

/-- An evdev `InputEvent`: event type, code, and value. -/
structure InputEvent where
  type : EvType
  code : Nat
  value : Int
  deriving DecidableEq, Repr

/-- Embeds `Key::KEY_LEFTCTRL.0` -/
def KEY_LEFTCTRL : Nat := 29
/-- Embeds `Key::KEY_LEFTALT.0` -/
def KEY_LEFTALT : Nat := 56
/-- Embeds `Key::KEY_LEFTSHIFT.0` -/
def KEY_LEFTSHIFT : Nat := 42
/-- Embeds `Key::KEY_LEFTMETA.0` -/
def KEY_LEFTMETA : Nat := 125

/-- Embeds `Modifiers` from `src/remap.rs`: independent ctrl/alt/shift/meta flags. -/
structure Modifiers where
  ctrl : Bool
  alt : Bool
  shift : Bool
  meta : Bool
  deriving DecidableEq, Repr

/-- Embeds `Modifiers::to_key_codes` (`src/remap.rs` lines 49-70): the key codes of
the active modifiers, collected in the fixed order ctrl, alt, shift, meta. -/
def Modifiers.to_key_codes (m : Modifiers) : List Nat :=
  (if m.ctrl then [KEY_LEFTCTRL] else []) ++
  (if m.alt then [KEY_LEFTALT] else []) ++
  (if m.shift then [KEY_LEFTSHIFT] else []) ++
  (if m.meta then [KEY_LEFTMETA] else [])

/-- Whether the modifier key code `c` is one of the four modifier codes and
its flag is set in `m`. Spec-side helper used to express `to_key_codes` as the
fixed list ctrl, alt, shift, meta filtered to the active flags. -/
def modifierActive (m : Modifiers) (c : Nat) : Bool :=
  (decide (c = KEY_LEFTCTRL) && m.ctrl) || (decide (c = KEY_LEFTALT) && m.alt) ||
  (decide (c = KEY_LEFTSHIFT) && m.shift) || (decide (c = KEY_LEFTMETA) && m.meta)

/-- Embeds `MappingTarget` from `src/remap.rs`: target base code plus modifiers. -/
structure MappingTarget where
  base : Nat
  mods : Modifiers
  deriving DecidableEq, Repr

/-- The mapping table `BTreeMap<u16, MappingTarget>`, as its lookup function. -/
def Mappings : Type := Nat → Option MappingTarget

/-- Embeds `SCROLL_UP_CODE` in `remap_events`. -/
def SCROLL_UP_CODE : Nat := 280
/-- Embeds `SCROLL_DOWN_CODE` in `remap_events`. -/
def SCROLL_DOWN_CODE : Nat := 281
/-- Embeds `MACRO_CODE_BASE` in `remap_events`. -/
def MACRO_CODE_BASE : Nat := 1000
/-- Embeds `REL_WHEEL` axis code. -/
def REL_WHEEL : Nat := 8
/-- Embeds `REL_HWHEEL` axis code. -/
def REL_HWHEEL : Nat := 6
/-- Embeds `RelativeAxisType::REL_X` code. -/
def REL_X : Nat := 0
/-- Embeds `RelativeAxisType::REL_Y` code. -/
def REL_Y : Nat := 1

/-- Embeds `remap_events` from `src/remap.rs` (lines 825-910). Returns the list of
events emitted to the virtual device and, when a macro target is triggered,
the macro id whose execution is requested (the asynchronous spawn and the
lookup in the macro table are side effects; the id computed and dispatched is
`target.base - MACRO_CODE_BASE`). The Rust function wraps the result in
`Option` but returns `Some` on every path, so the embedding drops the
wrapper. -/
def remap_events (mappings : Mappings) (ev : InputEvent) :
    List InputEvent × Option Nat :=
  match ev.type with
  | EvType.key =>
    let src_code := ev.code
    let value := ev.value
    match mappings src_code with
    | some target =>
      if target.base = SCROLL_UP_CODE ∨ target.base = SCROLL_DOWN_CODE then
        -- Only emit scroll on key press (value=1), not release or repeat
        if value = 1 then
          let scroll_value : Int := if target.base = SCROLL_UP_CODE then 1 else -1
          ([⟨EvType.relative, REL_WHEEL, scroll_value⟩], none)
        else
          ([], none)
      else if MACRO_CODE_BASE < target.base ∧ target.base < 2000 then
        -- Macro target: trigger on press only, emit no key events
        let macro_id := target.base - MACRO_CODE_BASE
        if value = 1 then ([], some macro_id) else ([], none)
      else if value = 1 then
        -- Press: press modifiers first, then base key
        ((target.mods.to_key_codes.map fun m => ⟨EvType.key, m, 1⟩) ++
          [⟨EvType.key, target.base, 1⟩], none)
      else if value = 0 then
        -- Release: release base, then modifiers
        (⟨EvType.key, target.base, 0⟩ ::
          (target.mods.to_key_codes.map fun m => ⟨EvType.key, m, 0⟩), none)
      else if value = 2 then
        -- Repeat: repeat base only
        ([⟨EvType.key, target.base, 2⟩], none)
      else
        ([ev], none)
    | none => ([ev], none)
  | _ => ([ev], none)

/-- Embeds `calculate_scroll_speed` from `src/remap.rs` (lines 474-491): tick
magnitude as a step function of the distance from the anchor. -/
def calculate_scroll_speed (distance dead_zone : Int) : Int :=
  let d := |distance|
  if d ≤ dead_zone then 0
  else if d ≤ 50 then 1
  else if d ≤ 100 then 2
  else if d ≤ 150 then 3
  else if d ≤ 200 then 4
  else if d ≤ 300 then 5
  else 6

/-! ## Autoscroll gesture state machine

Embedding of the autoscroll block of `run_remapper_loop`
(`src/remap.rs` lines 435-781, the `if config.autoscroll_enabled` branch).
The mutable loop variables become a state record; a step consumes one input
event and yields the new state, the events emitted to the virtual device, and
whether the event was consumed (`continue` in the source) or passes on to the
event translator. The absolute cursor tracking (`abs_cursor_x`/`abs_cursor_y`)
only feeds the overlay Show position and is not part of the state machine;
overlay commands are likewise omitted. -/

/-- Embeds `BTN_MIDDLE` constant in `run_remapper_loop`. -/
def BTN_MIDDLE : Nat := 274
/-- Embeds `QUICK_CLICK_THRESHOLD_MS`. -/
def QUICK_CLICK_THRESHOLD_MS : Nat := 150
/-- Embeds `TOGGLE_MODE_THRESHOLD_MS`. -/
def TOGGLE_MODE_THRESHOLD_MS : Nat := 400
/-- Embeds `SCROLL_DEAD_ZONE`. -/
def SCROLL_DEAD_ZONE : Int := 15
/-- Embeds `SCROLL_TICK_INTERVAL`. -/
def SCROLL_TICK_INTERVAL : Nat := 3
/-- Embeds `SCROLL_GRACE_PERIOD_MS`. -/
def SCROLL_GRACE_PERIOD_MS : Nat := 0

/-- The autoscroll loop-state of `run_remapper_loop`: the mutable variables
`autoscroll_active`, `autoscroll_toggle_mode`, `autoscroll_moved`,
`middle_press_time`, `middle_passthrough`, `anchor_x/y`, `cursor_x/y`,
`scroll_tick_counter` and `autoscroll_start_time`. -/
structure ScrollState where
  active : Bool
  toggleMode : Bool
  moved : Bool
  pressTime : Option Nat
  passthrough : Bool
  anchorX : Int
  anchorY : Int
  cursorX : Int
  cursorY : Int
  tickCounter : Nat
  startTime : Option Nat
  deriving DecidableEq, Repr

/-- The initial values of the autoscroll state variables
(`src/remap.rs` lines 438-456). -/
def initialScrollState : ScrollState :=
  { active := false, toggleMode := false, moved := false, pressTime := none,
    passthrough := false, anchorX := 0, anchorY := 0, cursorX := 0,
    cursorY := 0, tickCounter := 0, startTime := none }

/-- A synchronization event (`InputEvent::new(EventType::SYNCHRONIZATION, 0, 0)`). -/
def syncEv : InputEvent := ⟨EvType.synchronization, 0, 0⟩

/-- The "any other button click while in autoscroll mode exits it" check
(`src/remap.rs` lines 693-705), reached by key events that the
`BTN_MIDDLE` handling did not `continue` past. The event is not consumed:
it falls through to the translator. -/
def otherButtonCheck (s : ScrollState) (value : Int) :
    ScrollState × List InputEvent × Bool :=
  if s.active ∧ value = 1 then
    ({ s with active := false, toggleMode := false, pressTime := none }, [], false)
  else
    (s, [], false)

/-- The key-event part of the autoscroll block (`src/remap.rs` lines 544-706).
`detector` is the scroll detector when one was created, as its
`should_autoscroll` answer for the current cursor position; `now` is the
current time in milliseconds. -/
def autoscrollKeyStep (detector : Option Bool) (now : Nat) (s : ScrollState)
    (code : Nat) (value : Int) : ScrollState × List InputEvent × Bool :=
  if code = BTN_MIDDLE then
    if value = 1 then
      if s.active ∧ s.toggleMode then
        -- Already in toggle mode - exit on middle click
        ({ s with active := false, toggleMode := false, pressTime := none }, [], true)
      else
        -- No detector available: default to allowing autoscroll everywhere
        let is_scrollable : Bool := match detector with
          | some b => b
          | none => true
        if is_scrollable = false then
          -- Not scrollable: emit a normal middle press and pass through
          ({ s with passthrough := true },
            [⟨EvType.key, BTN_MIDDLE, 1⟩, syncEv], true)
        else
          -- Start autoscroll (mode determined on release)
          ({ s with
              active := true
              toggleMode := false
              moved := false
              passthrough := false
              pressTime := some now
              tickCounter := 0
              anchorX := 0
              anchorY := 0
              cursorX := 0
              cursorY := 0
              startTime := some now }, [], true)
    else if value = 0 then
      if s.passthrough then
        ({ s with passthrough := false },
          [⟨EvType.key, BTN_MIDDLE, 0⟩, syncEv], true)
      else if s.active ∧ ¬s.toggleMode then
        let hold_duration := match s.pressTime with
          | some t => now - t
          | none => 0
        let was_quick_click := hold_duration < QUICK_CLICK_THRESHOLD_MS
        let was_toggle_hold := QUICK_CLICK_THRESHOLD_MS ≤ hold_duration ∧
          hold_duration < TOGGLE_MODE_THRESHOLD_MS
        if was_quick_click ∧ ¬s.moved then
          -- Quick click: emit a full synthetic middle press+release
          ({ s with active := false, pressTime := none },
            [⟨EvType.key, BTN_MIDDLE, 1⟩, syncEv,
              ⟨EvType.key, BTN_MIDDLE, 0⟩, syncEv], true)
        else if was_toggle_hold ∧ ¬s.moved then
          -- Medium hold: enter toggle mode
          ({ s with toggleMode := true }, [], true)
        else
          -- Long hold or moved: exit autoscroll
          ({ s with active := false, pressTime := none }, [], true)
      else if s.toggleMode then
        -- In toggle mode, middle release is ignored
        (s, [], true)
      else
        otherButtonCheck s value
    else
      otherButtonCheck s value
  else
    otherButtonCheck s value

/-- The relative-axis part of the autoscroll block (`src/remap.rs` lines
708-780): track motion from the anchor, and every `SCROLL_TICK_INTERVAL`
motion events emit wheel/h-wheel ticks sized by `calculate_scroll_speed`.
Motion events are never consumed (the cursor keeps moving freely). -/
def autoscrollRelStep (now : Nat) (s : ScrollState) (axis : Nat) (v : Int) :
    ScrollState × List InputEvent × Bool :=
  if s.active then
    let s1 :=
      if axis = REL_X then
        { s with cursorX := s.cursorX + v, moved := true }
      else if axis = REL_Y then
        { s with cursorY := s.cursorY + v, moved := true }
      else s
    let s2 := { s1 with tickCounter := s1.tickCounter + 1 }
    let in_grace_period : Bool := match s2.startTime with
      | some t => decide (now - t < SCROLL_GRACE_PERIOD_MS)
      | none => false
    if in_grace_period = false ∧ SCROLL_TICK_INTERVAL ≤ s2.tickCounter then
      let s3 := { s2 with tickCounter := 0 }
      let dx := s3.cursorX - s3.anchorX
      let dy := s3.cursorY - s3.anchorY
      let h_speed := calculate_scroll_speed dx SCROLL_DEAD_ZONE
      let v_speed := calculate_scroll_speed dy SCROLL_DEAD_ZONE
      let hEvents :=
        if 0 < h_speed then
          [(⟨EvType.relative, REL_HWHEEL, if 0 < dx then h_speed else -h_speed⟩ : InputEvent),
            syncEv]
        else []
      let vEvents :=
        if 0 < v_speed then
          -- Negative because mouse down = scroll down (content up)
          [(⟨EvType.relative, REL_WHEEL, if 0 < dy then -v_speed else v_speed⟩ : InputEvent),
            syncEv]
        else []
      (s3, hEvents ++ vEvents, false)
    else
      (s2, [], false)
  else
    (s, [], false)

/-- One step of the autoscroll gesture state machine on an incoming event,
with autoscroll enabled. Returns the new state, the events emitted directly
to the virtual device, and whether the event was consumed (`continue`). -/
def autoscrollStep (detector : Option Bool) (now : Nat) (s : ScrollState)
    (ev : InputEvent) : ScrollState × List InputEvent × Bool :=
  match ev.type with
  | EvType.key => autoscrollKeyStep detector now s ev.code ev.value
  | EvType.relative => autoscrollRelStep now s ev.code ev.value
  | EvType.synchronization => (s, [], false)

/-- Embeds `NullScrollDetector::should_autoscroll` from
`src/display_backend/null.rs`: always denies. -/
def NullScrollDetector.should_autoscroll : Bool := false

/-- The gesture state `Idle` of the spec: not active, not in toggle mode, not in
passthrough. -/
def ScrollState.isIdle (s : ScrollState) : Prop :=
  s.active = false ∧ s.toggleMode = false ∧ s.passthrough = false

/-- The gesture state `ToggleActive` of the spec. -/
def ScrollState.isToggleActive (s : ScrollState) : Prop :=
  s.active = true ∧ s.toggleMode = true

/-! ## X11 scroll-target classifier

Embedding of `X11ScrollDetector::should_autoscroll` from
`src/display_backend/x11.rs` (lines 211-288) on a cache miss. The X11 window
under the pointer and its parent chain, together with the property-query
results (`_NET_WM_WINDOW_TYPE` atoms and `WM_CLASS`), are modelled as input
data; the decision cache and the X11 query failure paths are outside the
decision algorithm itself. -/

/-- Substring test on character lists, the meaning of the Rust
method `str::contains`. -/
def charsContain (needle : List Char) : List Char → Bool
  | [] => needle.isEmpty
  | c :: t => needle.isPrefixOf (c :: t) || charsContain needle t

/-- Embeds `haystack.contains(needle)` on strings. -/
def strContains (haystack needle : String) : Bool :=
  charsContain needle.toList haystack.toList

/-- The Rust method `str::to_lowercase`, as a character-wise map (the WM_CLASS
strings the classifier compares are ASCII). -/
def strToLower (s : String) : String :=
  ⟨s.data.map Char.toLower⟩

/-- Embeds `DENY_CLASSES` from `src/display_backend/heuristic.rs`: known
non-scrollable WM_CLASS values (lowercase). -/
def DENY_CLASSES : List String :=
  ["plasmashell", "gnome-shell", "mutter", "kwin", "xfdesktop",
   "pcmanfm-desktop", "nemo-desktop",
   "latte-dock", "plank", "cairo-dock", "docky", "polybar", "waybar",
   "xfce4-panel", "mate-panel", "budgie-panel",
   "notify-osd", "dunst", "xfce4-notifyd", "mako",
   "rofi", "dmenu", "ulauncher", "albert", "krunner", "wofi", "fuzzel", "tofi",
   "trayer", "stalonetray"]

/-- Embeds `ALLOW_CLASSES` from `src/display_backend/heuristic.rs`: known scrollable
WM_CLASS values (lowercase). -/
def ALLOW_CLASSES : List String :=
  ["firefox", "chromium", "chrome", "google-chrome", "brave", "brave-browser",
   "vivaldi", "opera", "microsoft-edge", "edge", "librewolf", "waterfox",
   "epiphany", "midori", "qutebrowser", "nyxt", "zen-browser", "floorp",
   "code", "code-oss", "vscodium", "vscode", "sublime_text", "sublime",
   "atom", "gedit", "kate", "kwrite", "pluma", "xed", "mousepad", "gvim",
   "vim", "neovim", "emacs", "doom-emacs", "intellij", "idea", "pycharm",
   "clion", "rider", "webstorm", "goland", "android-studio", "eclipse",
   "netbeans", "kdevelop", "zed", "lapce", "helix",
   "konsole", "gnome-terminal", "gnome-terminal-server", "alacritty", "kitty",
   "terminator", "tilix", "xterm", "urxvt", "rxvt", "st", "foot", "wezterm",
   "contour", "guake", "yakuake", "tilda", "blackbox", "ghostty",
   "nautilus", "dolphin", "thunar", "pcmanfm", "nemo", "caja", "spacefm",
   "doublecmd", "krusader", "ranger", "mc", "files",
   "libreoffice", "soffice", "okular", "evince", "zathura", "mupdf",
   "calibre", "foliate", "xreader", "atril", "qpdfview", "papers",
   "slack", "discord", "telegram-desktop", "telegram", "signal", "element",
   "teams", "zoom", "skype", "thunderbird", "evolution", "geary", "kmail",
   "claws-mail", "vesktop",
   "spotify", "vlc", "mpv", "celluloid", "totem", "rhythmbox", "clementine",
   "strawberry", "audacious",
   "gitk", "git-gui", "meld", "kdiff3", "diffuse",
   "systemsettings", "gnome-control-center", "xfce4-settings-manager",
   "gimp", "inkscape", "krita", "darktable", "rawtherapee", "eog",
   "gwenview", "feh", "sxiv", "imv", "loupe",
   "obsidian", "logseq", "notion", "joplin", "simplenote", "zettlr",
   "keepassxc", "bitwarden", "1password"]

/-- A window in the parent chain under the pointer, as the classifier sees
it: its `_NET_WM_WINDOW_TYPE` atoms and its `WM_CLASS` class string (the
second `WM_CLASS` component), when present. -/
structure XWindow where
  typeAtoms : List Nat
  wmClass : Option String
  deriving DecidableEq, Repr

/-- The fields of `X11ScrollDetector` the decision depends on: the interned
denied window-type atoms of `X11ScrollDetector::new` and the strict-default
flag (`true` outside Wayland). -/
structure X11Detector where
  denyTypeAtoms : List Nat
  strictDefault : Bool
  deriving DecidableEq, Repr

/-- The class found by scanning the parent chain for the first window with a
`WM_CLASS`, lowercased (`src/display_backend/x11.rs` lines 253-260). -/
def found_wm_class (chain : List XWindow) : Option String :=
  (chain.findSome? fun w => w.wmClass).map strToLower

/-- The decision algorithm of `X11ScrollDetector::should_autoscroll`
(`src/display_backend/x11.rs` lines 242-287) on a cache miss, applied to the
parent chain of the deepest window under the pointer. -/
def should_autoscroll_x11 (det : X11Detector) (chain : List XWindow) : Bool :=
  -- 1) Deny by window type (check all parents)
  if chain.any (fun w => w.typeAtoms.any fun a => det.denyTypeAtoms.contains a) then
    false
  else
    -- 2) Find WM_CLASS in parent chain
    match found_wm_class chain with
    | some cls =>
      -- 3) Deny by WM_CLASS
      if DENY_CLASSES.any (fun d => strContains cls d) then false
      -- 4) Allow by WM_CLASS
      else if ALLOW_CLASSES.any (fun a => strContains cls a) then true
      -- 5) Strict default: unknown = NOT scrollable
      else !det.strictDefault
    | none => !det.strictDefault

/-! ## Claims about the event translator -/

/-- C1, counterexample: for the mapping `2 → (key 59, ctrl+shift)`, the
release of source code 2 emits the target release followed by the modifier
releases in the same fixed order ctrl, shift — not in the reverse order
shift, ctrl that the claim states. -/
theorem C1_release_reverse_order_counterexample :
    (remap_events (fun c => if c = 2 then some ⟨59, ⟨true, false, true, false⟩⟩ else none)
        ⟨EvType.key, 2, 0⟩).1 =
      [⟨EvType.key, 59, 0⟩, ⟨EvType.key, KEY_LEFTCTRL, 0⟩, ⟨EvType.key, KEY_LEFTSHIFT, 0⟩] ∧
    ([⟨EvType.key, 59, 0⟩, ⟨EvType.key, KEY_LEFTCTRL, 0⟩, ⟨EvType.key, KEY_LEFTSHIFT, 0⟩] :
        List InputEvent) ≠
      [⟨EvType.key, 59, 0⟩, ⟨EvType.key, KEY_LEFTSHIFT, 0⟩, ⟨EvType.key, KEY_LEFTCTRL, 0⟩] := by
  constructor
  · rfl
  · decide

/-- C1 (amended): for every mapping entry with a direct-key target and every
set of active modifiers, a press (value=1) emits the press of each active
modifier in the fixed order ctrl, alt, shift, meta followed by the press of
the target key; the matching release (value=0) emits the release of the
target key followed by the releases of the active modifiers in the SAME
fixed order ctrl, alt, shift, meta (not reversed); a repeat (value=2) emits a
repeat of the target key only, with no modifier events. -/
theorem C1_direct_key_remap_order (mappings : Mappings) (code : Nat)
    (t : MappingTarget) (hmap : mappings code = some t)
    (hup : t.base ≠ SCROLL_UP_CODE) (hdown : t.base ≠ SCROLL_DOWN_CODE)
    (hmac : ¬(MACRO_CODE_BASE < t.base ∧ t.base < 2000)) :
    t.mods.to_key_codes =
      [KEY_LEFTCTRL, KEY_LEFTALT, KEY_LEFTSHIFT, KEY_LEFTMETA].filter
        (modifierActive t.mods) ∧
    remap_events mappings ⟨EvType.key, code, 1⟩ =
      ((t.mods.to_key_codes.map fun m => ⟨EvType.key, m, 1⟩) ++
        [⟨EvType.key, t.base, 1⟩], none) ∧
    remap_events mappings ⟨EvType.key, code, 0⟩ =
      (⟨EvType.key, t.base, 0⟩ ::
        (t.mods.to_key_codes.map fun m => ⟨EvType.key, m, 0⟩), none) ∧
    remap_events mappings ⟨EvType.key, code, 2⟩ = ([⟨EvType.key, t.base, 2⟩], none) := by
  refine ⟨?_, ?_, ?_, ?_⟩
  · obtain ⟨base, ⟨mc, ma, ms, mm⟩⟩ := t
    cases mc <;> cases ma <;> cases ms <;> cases mm <;> rfl
  all_goals simp [remap_events, hmap, hup, hdown, hmac]

/-- C1 witness: the amended theorem evaluated at the mapping
`2 → (key 59, ctrl+shift)`. -/
theorem C1_direct_key_remap_order_witness :
    remap_events (fun c => if c = 2 then some ⟨59, ⟨true, false, true, false⟩⟩ else none)
        ⟨EvType.key, 2, 1⟩ =
      ([⟨EvType.key, KEY_LEFTCTRL, 1⟩, ⟨EvType.key, KEY_LEFTSHIFT, 1⟩,
        ⟨EvType.key, 59, 1⟩], none) ∧
    remap_events (fun c => if c = 2 then some ⟨59, ⟨true, false, true, false⟩⟩ else none)
        ⟨EvType.key, 2, 0⟩ =
      ([⟨EvType.key, 59, 0⟩, ⟨EvType.key, KEY_LEFTCTRL, 0⟩,
        ⟨EvType.key, KEY_LEFTSHIFT, 0⟩], none) := by
  have h := C1_direct_key_remap_order
    (fun c => if c = 2 then some ⟨59, ⟨true, false, true, false⟩⟩ else none) 2
    ⟨59, ⟨true, false, true, false⟩⟩ rfl (by decide) (by decide) (by decide)
  exact ⟨h.2.1, h.2.2.1⟩

/-- C7: for every mapping entry whose target is a synthetic-scroll code
(280 or 281), a press (value=1) of the source code emits exactly one
relative-axis tick of value +1 for 280 or -1 for 281, and a release or
repeat of that same source code emits zero events. -/
theorem C7_scroll_target_ticks (mappings : Mappings) (code : Nat)
    (t : MappingTarget) (hmap : mappings code = some t)
    (hscroll : t.base = SCROLL_UP_CODE ∨ t.base = SCROLL_DOWN_CODE) :
    (t.base = SCROLL_UP_CODE →
      remap_events mappings ⟨EvType.key, code, 1⟩ =
        ([⟨EvType.relative, REL_WHEEL, 1⟩], none)) ∧
    (t.base = SCROLL_DOWN_CODE →
      remap_events mappings ⟨EvType.key, code, 1⟩ =
        ([⟨EvType.relative, REL_WHEEL, -1⟩], none)) ∧
    remap_events mappings ⟨EvType.key, code, 0⟩ = ([], none) ∧
    remap_events mappings ⟨EvType.key, code, 2⟩ = ([], none) := by
  refine ⟨?_, ?_, ?_, ?_⟩ <;>
    first
    | (intro h
       simp [remap_events, hmap, h, SCROLL_UP_CODE, SCROLL_DOWN_CODE])
    | simp [remap_events, hmap, hscroll]

/-- C7 witness: the scroll-target theorem evaluated at `5 → 280` and
`6 → 281`. -/
theorem C7_scroll_target_ticks_witness :
    remap_events (fun c => if c = 5 then some ⟨280, ⟨false, false, false, false⟩⟩ else none)
        ⟨EvType.key, 5, 1⟩ = ([⟨EvType.relative, REL_WHEEL, 1⟩], none) ∧
    remap_events (fun c => if c = 6 then some ⟨281, ⟨false, false, false, false⟩⟩ else none)
        ⟨EvType.key, 6, 1⟩ = ([⟨EvType.relative, REL_WHEEL, -1⟩], none) ∧
    remap_events (fun c => if c = 5 then some ⟨280, ⟨false, false, false, false⟩⟩ else none)
        ⟨EvType.key, 5, 0⟩ = ([], none) ∧
    remap_events (fun c => if c = 5 then some ⟨280, ⟨false, false, false, false⟩⟩ else none)
        ⟨EvType.key, 5, 2⟩ = ([], none) := by
  have hup := C7_scroll_target_ticks
    (fun c => if c = 5 then some ⟨280, ⟨false, false, false, false⟩⟩ else none) 5
    ⟨280, ⟨false, false, false, false⟩⟩ rfl (Or.inl rfl)
  have hdown := C7_scroll_target_ticks
    (fun c => if c = 6 then some ⟨281, ⟨false, false, false, false⟩⟩ else none) 6
    ⟨281, ⟨false, false, false, false⟩⟩ rfl (Or.inr rfl)
  exact ⟨hup.1 rfl, hdown.2.1 rfl, hup.2.2.1, hup.2.2.2⟩

/-- C8: a key/button event whose source code has no mapping entry passes
through unchanged: the output is exactly the single original event and no
macro is dispatched. -/
theorem C8_unmapped_passthrough (mappings : Mappings) (ev : InputEvent)
    (hkey : ev.type = EvType.key) (hmap : mappings ev.code = none) :
    remap_events mappings ev = ([ev], none) := by
  obtain ⟨ty, c, v⟩ := ev
  simp only at hkey
  subst hkey
  simp only at hmap
  simp [remap_events, hmap]

/-- C8 witness: the unmapped-passthrough theorem evaluated on a press of
code 273 under the empty mapping table. -/
theorem C8_unmapped_passthrough_witness :
    remap_events (fun _ => none) ⟨EvType.key, 273, 1⟩ =
      ([⟨EvType.key, 273, 1⟩], none) :=
  C8_unmapped_passthrough (fun _ => none) ⟨EvType.key, 273, 1⟩ rfl rfl

/-- C9: the macro range is exclusive at both ends: a target of exactly 1000,
or of 2000 and above, gets direct-key semantics (a press emits a key press of
the literal target code, after the active modifiers), and only targets 1001
through 1999 get macro semantics (a press dispatches macro id
`target - 1000` and emits no events). -/
theorem C9_macro_range_boundaries (mappings : Mappings) (code : Nat)
    (t : MappingTarget) (hmap : mappings code = some t) :
    (t.base = 1000 →
      remap_events mappings ⟨EvType.key, code, 1⟩ =
        ((t.mods.to_key_codes.map fun m => ⟨EvType.key, m, 1⟩) ++
          [⟨EvType.key, t.base, 1⟩], none)) ∧
    (2000 ≤ t.base →
      remap_events mappings ⟨EvType.key, code, 1⟩ =
        ((t.mods.to_key_codes.map fun m => ⟨EvType.key, m, 1⟩) ++
          [⟨EvType.key, t.base, 1⟩], none)) ∧
    (1001 ≤ t.base → t.base ≤ 1999 →
      remap_events mappings ⟨EvType.key, code, 1⟩ = ([], some (t.base - 1000))) := by
  refine ⟨fun h => ?_, fun h => ?_, fun h h2 => ?_⟩
  · have h1 : ¬(t.base = SCROLL_UP_CODE ∨ t.base = SCROLL_DOWN_CODE) := by
      simp [SCROLL_UP_CODE, SCROLL_DOWN_CODE]; omega
    have hm : ¬(MACRO_CODE_BASE < t.base ∧ t.base < 2000) := by
      simp [MACRO_CODE_BASE]; omega
    simp [remap_events, hmap, h1, hm]
  · have h1 : ¬(t.base = SCROLL_UP_CODE ∨ t.base = SCROLL_DOWN_CODE) := by
      simp [SCROLL_UP_CODE, SCROLL_DOWN_CODE]; omega
    have hm : ¬(MACRO_CODE_BASE < t.base ∧ t.base < 2000) := by
      simp [MACRO_CODE_BASE]; omega
    simp [remap_events, hmap, h1, hm]
  · have h1 : ¬(t.base = SCROLL_UP_CODE ∨ t.base = SCROLL_DOWN_CODE) := by
      simp [SCROLL_UP_CODE, SCROLL_DOWN_CODE]; omega
    have hm : MACRO_CODE_BASE < t.base ∧ t.base < 2000 := by
      simp [MACRO_CODE_BASE]; omega
    simp [remap_events, hmap, h1, hm, MACRO_CODE_BASE]
    omega

/-- C9 witness: the boundary theorem evaluated at targets 1000, 2000, 1001
and 1999 (no modifiers). -/
theorem C9_macro_range_boundaries_witness :
    remap_events (fun c => if c = 2 then some ⟨1000, ⟨false, false, false, false⟩⟩ else none)
        ⟨EvType.key, 2, 1⟩ = ([⟨EvType.key, 1000, 1⟩], none) ∧
    remap_events (fun c => if c = 2 then some ⟨2000, ⟨false, false, false, false⟩⟩ else none)
        ⟨EvType.key, 2, 1⟩ = ([⟨EvType.key, 2000, 1⟩], none) ∧
    remap_events (fun c => if c = 2 then some ⟨1001, ⟨false, false, false, false⟩⟩ else none)
        ⟨EvType.key, 2, 1⟩ = ([], some 1) ∧
    remap_events (fun c => if c = 2 then some ⟨1999, ⟨false, false, false, false⟩⟩ else none)
        ⟨EvType.key, 2, 1⟩ = ([], some 999) := by
  have ha := C9_macro_range_boundaries
    (fun c => if c = 2 then some ⟨1000, ⟨false, false, false, false⟩⟩ else none) 2
    ⟨1000, ⟨false, false, false, false⟩⟩ rfl
  have hb := C9_macro_range_boundaries
    (fun c => if c = 2 then some ⟨2000, ⟨false, false, false, false⟩⟩ else none) 2
    ⟨2000, ⟨false, false, false, false⟩⟩ rfl
  have hc := C9_macro_range_boundaries
    (fun c => if c = 2 then some ⟨1001, ⟨false, false, false, false⟩⟩ else none) 2
    ⟨1001, ⟨false, false, false, false⟩⟩ rfl
  have hd := C9_macro_range_boundaries
    (fun c => if c = 2 then some ⟨1999, ⟨false, false, false, false⟩⟩ else none) 2
    ⟨1999, ⟨false, false, false, false⟩⟩ rfl
  exact ⟨ha.1 rfl, hb.2.1 (by decide), hc.2.2 (by decide) (by decide),
    hd.2.2 (by decide) (by decide)⟩

/-- C10: for every mapping entry with a direct-key target, a source event
whose value is neither 0, 1 nor 2 passes through as the single original
event, unchanged, with no target or modifier events. -/
theorem C10_unknown_value_passthrough (mappings : Mappings) (code : Nat)
    (t : MappingTarget) (v : Int) (hmap : mappings code = some t)
    (hup : t.base ≠ SCROLL_UP_CODE) (hdown : t.base ≠ SCROLL_DOWN_CODE)
    (hmac : ¬(MACRO_CODE_BASE < t.base ∧ t.base < 2000))
    (h0 : v ≠ 0) (h1 : v ≠ 1) (h2 : v ≠ 2) :
    remap_events mappings ⟨EvType.key, code, v⟩ = ([⟨EvType.key, code, v⟩], none) := by
  simp [remap_events, hmap, hup, hdown, hmac, h0, h1, h2]

/-- C10 witness: the unknown-value theorem evaluated at value 3 for the
mapping `2 → key 59`. -/
theorem C10_unknown_value_passthrough_witness :
    remap_events (fun c => if c = 2 then some ⟨59, ⟨false, false, false, false⟩⟩ else none)
        ⟨EvType.key, 2, 3⟩ = ([⟨EvType.key, 2, 3⟩], none) :=
  C10_unknown_value_passthrough
    (fun c => if c = 2 then some ⟨59, ⟨false, false, false, false⟩⟩ else none) 2
    ⟨59, ⟨false, false, false, false⟩⟩ 3 rfl (by decide) (by decide) (by decide)
    (by decide) (by decide) (by decide)

/-! ## Claims about the gesture state machine -/

/-- C2: with autoscroll active in hold (non-toggle) mode, a release of the
designated button less than 150 ms after the press with zero accumulated
motion emits exactly one synthesized press+release pair of the designated
button (each followed by its synchronization event, the framing every write
to the virtual device carries) and nothing else, and the machine returns to
the idle state. -/
theorem C2_quick_click_synthesizes_click (d : Option Bool) (now t : Nat)
    (s : ScrollState) (hact : s.active = true) (htog : s.toggleMode = false)
    (hpass : s.passthrough = false) (hmoved : s.moved = false)
    (hpt : s.pressTime = some t) (helapsed : now - t < QUICK_CLICK_THRESHOLD_MS) :
    autoscrollStep d now s ⟨EvType.key, BTN_MIDDLE, 0⟩ =
      ({ s with active := false, pressTime := none },
        [⟨EvType.key, BTN_MIDDLE, 1⟩, syncEv, ⟨EvType.key, BTN_MIDDLE, 0⟩, syncEv],
        true) ∧
    ScrollState.isIdle { s with active := false, pressTime := none } := by
  constructor
  · simp [autoscrollStep, autoscrollKeyStep, hact, htog, hpass, hmoved, hpt, helapsed]
  · exact ⟨rfl, htog, hpass⟩

/-- C2 witness: a release at 100 ms after the press, from the state entered
by a designated-button press at time 0 over a scrollable target. -/
theorem C2_quick_click_synthesizes_click_witness :
    autoscrollStep (some true) 100
        { initialScrollState with active := true, pressTime := some 0, startTime := some 0 }
        ⟨EvType.key, BTN_MIDDLE, 0⟩ =
      ({ initialScrollState with startTime := some 0 },
        [⟨EvType.key, BTN_MIDDLE, 1⟩, syncEv, ⟨EvType.key, BTN_MIDDLE, 0⟩, syncEv],
        true) :=
  (C2_quick_click_synthesizes_click (some true) 100 0
    { initialScrollState with active := true, pressTime := some 0, startTime := some 0 }
    rfl rfl rfl rfl rfl (by decide)).1

/-- C3: a release of the designated button with elapsed time in
[150 ms, 400 ms) and zero accumulated motion enters toggle-active mode;
from toggle-active mode, a press of the designated button exits to idle and
is suppressed (consumed, with no event emitted), a press of any other button
exits to idle and is passed through (not consumed), and every event that is
not a button press (releases, motion, synchronization) leaves the machine in
toggle-active mode. -/
theorem C3_toggle_mode_lifecycle (d : Option Bool) :
    (∀ (now t : Nat) (s : ScrollState), s.active = true → s.toggleMode = false →
      s.passthrough = false → s.moved = false → s.pressTime = some t →
      QUICK_CLICK_THRESHOLD_MS ≤ now - t → now - t < TOGGLE_MODE_THRESHOLD_MS →
      autoscrollStep d now s ⟨EvType.key, BTN_MIDDLE, 0⟩ =
        ({ s with toggleMode := true }, [], true) ∧
      ScrollState.isToggleActive { s with toggleMode := true }) ∧
    (∀ (now : Nat) (s : ScrollState), s.active = true → s.toggleMode = true →
      s.passthrough = false →
      autoscrollStep d now s ⟨EvType.key, BTN_MIDDLE, 1⟩ =
        ({ s with active := false, toggleMode := false, pressTime := none }, [], true) ∧
      ScrollState.isIdle { s with active := false, toggleMode := false, pressTime := none }) ∧
    (∀ (now : Nat) (s : ScrollState) (c : Nat), s.active = true → s.toggleMode = true →
      s.passthrough = false → c ≠ BTN_MIDDLE →
      autoscrollStep d now s ⟨EvType.key, c, 1⟩ =
        ({ s with active := false, toggleMode := false, pressTime := none }, [], false) ∧
      ScrollState.isIdle { s with active := false, toggleMode := false, pressTime := none }) ∧
    (∀ (now : Nat) (s : ScrollState) (ev : InputEvent), s.active = true →
      s.toggleMode = true → (ev.type = EvType.key → ev.value ≠ 1) →
      ScrollState.isToggleActive (autoscrollStep d now s ev).1) := by
  refine ⟨?_, ?_, ?_, ?_⟩
  · intro now t s hact htog hpass hmoved hpt h1 h2
    refine ⟨?_, hact, rfl⟩
    simp [autoscrollStep, autoscrollKeyStep, hact, htog, hpass, hmoved, hpt, h1, h2,
      Nat.not_lt.mpr h1]
  · intro now s hact htog hpass
    refine ⟨?_, rfl, rfl, hpass⟩
    simp [autoscrollStep, autoscrollKeyStep, hact, htog]
  · intro now s c hact htog hpass hc
    refine ⟨?_, rfl, rfl, hpass⟩
    simp [autoscrollStep, autoscrollKeyStep, otherButtonCheck, hact, htog, hc]
  · intro now s ev hact htog hnp
    obtain ⟨ty, c, v⟩ := ev
    cases ty
    case key =>
      have hv : v ≠ 1 := hnp rfl
      simp only [autoscrollStep, autoscrollKeyStep, otherButtonCheck]
      split_ifs <;> simp_all [ScrollState.isToggleActive]
    case relative =>
      simp only [autoscrollStep, autoscrollRelStep]
      split_ifs <;> simp_all [ScrollState.isToggleActive]
    case synchronization => exact ⟨hact, htog⟩

/-- C3 witness: entry at 250 ms from a pending press at time 0; from the
toggle-active state, a designated-button press exits suppressed, a press
of another button (272) exits passed through, and a relative motion event keeps
the machine toggle-active. -/
theorem C3_toggle_mode_lifecycle_witness :
    autoscrollStep (some true) 250
        { initialScrollState with active := true, pressTime := some 0, startTime := some 0 }
        ⟨EvType.key, BTN_MIDDLE, 0⟩ =
      ({ { initialScrollState with active := true, pressTime := some 0, startTime := some 0 }
          with toggleMode := true }, [], true) ∧
    autoscrollStep (some true) 300
        { initialScrollState with active := true, toggleMode := true, pressTime := some 0 }
        ⟨EvType.key, BTN_MIDDLE, 1⟩ =
      ({ { initialScrollState with active := true, toggleMode := true, pressTime := some 0 }
          with active := false, toggleMode := false, pressTime := none }, [], true) ∧
    autoscrollStep (some true) 300
        { initialScrollState with active := true, toggleMode := true, pressTime := some 0 }
        ⟨EvType.key, 272, 1⟩ =
      ({ { initialScrollState with active := true, toggleMode := true, pressTime := some 0 }
          with active := false, toggleMode := false, pressTime := none }, [], false) ∧
    ScrollState.isToggleActive
      (autoscrollStep (some true) 300
        { initialScrollState with active := true, toggleMode := true, pressTime := some 0 }
        ⟨EvType.relative, REL_X, 5⟩).1 := by
  have h := C3_toggle_mode_lifecycle (some true)
  exact ⟨(h.1 250 0 _ rfl rfl rfl rfl rfl (by decide) (by decide)).1,
    (h.2.1 300 _ rfl rfl rfl).1,
    (h.2.2.1 300 _ 272 rfl rfl rfl (by decide)).1,
    h.2.2.2 300 _ ⟨EvType.relative, REL_X, 5⟩ rfl rfl (by decide)⟩

/-- C5, counterexample: with no scroll detector available (`None`), a press
of the designated button from the initial state enters autoscroll (the
resulting state is active and the press is consumed, with no passthrough
click emitted) — the engine does not behave as an always-deny default. -/
theorem C5_no_detector_counterexample :
    ((autoscrollStep none 0 initialScrollState ⟨EvType.key, BTN_MIDDLE, 1⟩).1).active = true ∧
    (autoscrollStep none 0 initialScrollState ⟨EvType.key, BTN_MIDDLE, 1⟩).2.1 = [] ∧
    (autoscrollStep none 0 initialScrollState ⟨EvType.key, BTN_MIDDLE, 1⟩).2.2 = true := by
  decide

/-- C5 (amended): when every classifier strategy fails to initialize (no
scroll detector is available), the engine defaults to allowing autoscroll
everywhere: any press of the designated button that is not the exit click of
an already-active toggle mode is treated as over a scrollable target, enters
autoscroll, and is consumed with no passthrough click (the always-deny
`NullScrollDetector` exists but is not used by the remapper loop). -/
theorem C5_no_detector_allows_everywhere (now : Nat) (s : ScrollState)
    (h : ¬(s.active = true ∧ s.toggleMode = true)) :
    ((autoscrollStep none now s ⟨EvType.key, BTN_MIDDLE, 1⟩).1).active = true ∧
    (autoscrollStep none now s ⟨EvType.key, BTN_MIDDLE, 1⟩).2.1 = [] ∧
    (autoscrollStep none now s ⟨EvType.key, BTN_MIDDLE, 1⟩).2.2 = true := by
  simp [autoscrollStep, autoscrollKeyStep, h]

/-- C5 witness: the amended theorem evaluated at the initial state. -/
theorem C5_no_detector_allows_everywhere_witness :
    ((autoscrollStep none 7 initialScrollState ⟨EvType.key, BTN_MIDDLE, 1⟩).1).active = true ∧
    (autoscrollStep none 7 initialScrollState ⟨EvType.key, BTN_MIDDLE, 1⟩).2.1 = [] ∧
    (autoscrollStep none 7 initialScrollState ⟨EvType.key, BTN_MIDDLE, 1⟩).2.2 = true :=
  C5_no_detector_allows_everywhere 7 initialScrollState (by decide)

/-- C4: the scroll-speed function is zero whenever the absolute distance is
within the 15 px dead zone, is monotonically non-decreasing in absolute
distance, takes only the values 1 through 6 outside the dead zone, and its
tiers have boundaries at 50, 100, 150, 200 and 300 px. -/
theorem C4_scroll_speed_tiers :
    (∀ d : Int, |d| ≤ 15 → calculate_scroll_speed d SCROLL_DEAD_ZONE = 0) ∧
    (∀ a b : Int, |a| ≤ |b| →
      calculate_scroll_speed a SCROLL_DEAD_ZONE ≤ calculate_scroll_speed b SCROLL_DEAD_ZONE) ∧
    (∀ d : Int, 15 < |d| →
      1 ≤ calculate_scroll_speed d SCROLL_DEAD_ZONE ∧
      calculate_scroll_speed d SCROLL_DEAD_ZONE ≤ 6) ∧
    (∀ d : Int, 15 < |d| → |d| ≤ 50 → calculate_scroll_speed d SCROLL_DEAD_ZONE = 1) ∧
    (∀ d : Int, 50 < |d| → |d| ≤ 100 → calculate_scroll_speed d SCROLL_DEAD_ZONE = 2) ∧
    (∀ d : Int, 100 < |d| → |d| ≤ 150 → calculate_scroll_speed d SCROLL_DEAD_ZONE = 3) ∧
    (∀ d : Int, 150 < |d| → |d| ≤ 200 → calculate_scroll_speed d SCROLL_DEAD_ZONE = 4) ∧
    (∀ d : Int, 200 < |d| → |d| ≤ 300 → calculate_scroll_speed d SCROLL_DEAD_ZONE = 5) ∧
    (∀ d : Int, 300 < |d| → calculate_scroll_speed d SCROLL_DEAD_ZONE = 6) := by
  refine ⟨fun d h => ?_, fun a b h => ?_, fun d h => ?_, fun d h h2 => ?_,
    fun d h h2 => ?_, fun d h h2 => ?_, fun d h h2 => ?_, fun d h h2 => ?_,
    fun d h => ?_⟩ <;>
  · simp only [calculate_scroll_speed, SCROLL_DEAD_ZONE, Int.abs_eq_natAbs] at *
    split_ifs <;> omega

/-- C4 witness: the tier theorem evaluated at one distance per tier, using a
negative distance for the monotonicity instance. -/
theorem C4_scroll_speed_tiers_witness :
    calculate_scroll_speed 10 SCROLL_DEAD_ZONE = 0 ∧
    calculate_scroll_speed 20 SCROLL_DEAD_ZONE ≤ calculate_scroll_speed (-60) SCROLL_DEAD_ZONE ∧
    calculate_scroll_speed 20 SCROLL_DEAD_ZONE = 1 ∧
    calculate_scroll_speed 50 SCROLL_DEAD_ZONE = 1 ∧
    calculate_scroll_speed 51 SCROLL_DEAD_ZONE = 2 ∧
    calculate_scroll_speed 101 SCROLL_DEAD_ZONE = 3 ∧
    calculate_scroll_speed 151 SCROLL_DEAD_ZONE = 4 ∧
    calculate_scroll_speed 201 SCROLL_DEAD_ZONE = 5 ∧
    calculate_scroll_speed 301 SCROLL_DEAD_ZONE = 6 :=
  ⟨C4_scroll_speed_tiers.1 10 (by decide),
    C4_scroll_speed_tiers.2.1 20 (-60) (by decide),
    C4_scroll_speed_tiers.2.2.2.1 20 (by decide) (by decide),
    C4_scroll_speed_tiers.2.2.2.1 50 (by decide) (by decide),
    C4_scroll_speed_tiers.2.2.2.2.1 51 (by decide) (by decide),
    C4_scroll_speed_tiers.2.2.2.2.2.1 101 (by decide) (by decide),
    C4_scroll_speed_tiers.2.2.2.2.2.2.1 151 (by decide) (by decide),
    C4_scroll_speed_tiers.2.2.2.2.2.2.2.1 201 (by decide) (by decide),
    C4_scroll_speed_tiers.2.2.2.2.2.2.2.2 301 (by decide)⟩

/-! ## Claim about the scroll-target classifier -/

/-- C6: the X11 classifier decides in this order, first match winning:
(1) any ancestor window carrying a denied window-type atom ⇒ not scrollable;
(2) else, the found (first, lowercased) window class containing a deny-list
substring ⇒ not scrollable; (3) else, the class containing an allow-list
substring ⇒ scrollable; (4) otherwise, under the strict default, an unknown
window (no class found, or a class matching neither list) is not
scrollable. -/
theorem C6_x11_decision_order (det : X11Detector) (chain : List XWindow) :
    ((chain.any fun w => w.typeAtoms.any fun a => det.denyTypeAtoms.contains a) = true →
      should_autoscroll_x11 det chain = false) ∧
    (∀ cls : String,
      (chain.any fun w => w.typeAtoms.any fun a => det.denyTypeAtoms.contains a) = false →
      found_wm_class chain = some cls →
      (DENY_CLASSES.any fun d => strContains cls d) = true →
      should_autoscroll_x11 det chain = false) ∧
    (∀ cls : String,
      (chain.any fun w => w.typeAtoms.any fun a => det.denyTypeAtoms.contains a) = false →
      found_wm_class chain = some cls →
      (DENY_CLASSES.any fun d => strContains cls d) = false →
      (ALLOW_CLASSES.any fun a => strContains cls a) = true →
      should_autoscroll_x11 det chain = true) ∧
    (∀ cls : String,
      (chain.any fun w => w.typeAtoms.any fun a => det.denyTypeAtoms.contains a) = false →
      found_wm_class chain = some cls →
      (DENY_CLASSES.any fun d => strContains cls d) = false →
      (ALLOW_CLASSES.any fun a => strContains cls a) = false →
      det.strictDefault = true →
      should_autoscroll_x11 det chain = false) ∧
    ((chain.any fun w => w.typeAtoms.any fun a => det.denyTypeAtoms.contains a) = false →
      found_wm_class chain = none →
      det.strictDefault = true →
      should_autoscroll_x11 det chain = false) := by
  refine ⟨fun h1 => ?_, fun cls h1 h2 h3 => ?_, fun cls h1 h2 h3 h4 => ?_,
    fun cls h1 h2 h3 h4 h5 => ?_, fun h1 h2 h3 => ?_⟩
  · simp only [should_autoscroll_x11, h1]
    simp
  · simp only [should_autoscroll_x11, h1, h2, h3]
    simp
  · simp only [should_autoscroll_x11, h1, h2, h3, h4]
    simp
  · simp only [should_autoscroll_x11, h1, h2, h3, h4, h5]
    simp
  · simp only [should_autoscroll_x11, h1, h2, h3]
    simp

/-- C6 witness: a detector with denied atom 5 and the strict default, on
four one-window chains: a denied window type, a deny-listed class
(`plasmashell`), an allow-listed class (`Firefox`, lowercased before
matching), an unknown class (`xyz`), and a window with no class. -/
theorem C6_x11_decision_order_witness :
    should_autoscroll_x11 ⟨[5], true⟩ [⟨[5], some "firefox"⟩] = false ∧
    should_autoscroll_x11 ⟨[5], true⟩ [⟨[], some "plasmashell"⟩] = false ∧
    should_autoscroll_x11 ⟨[5], true⟩ [⟨[], some "Firefox"⟩] = true ∧
    should_autoscroll_x11 ⟨[5], true⟩ [⟨[], some "xyz"⟩] = false ∧
    should_autoscroll_x11 ⟨[5], true⟩ [⟨[], none⟩] = false := by
  refine ⟨(C6_x11_decision_order ⟨[5], true⟩ [⟨[5], some "firefox"⟩]).1 (by decide),
    (C6_x11_decision_order ⟨[5], true⟩ [⟨[], some "plasmashell"⟩]).2.1 "plasmashell"
      (by decide) (by decide) (by decide),
    (C6_x11_decision_order ⟨[5], true⟩ [⟨[], some "Firefox"⟩]).2.2.1 "firefox"
      (by decide) (by decide) (by decide) (by decide),
    (C6_x11_decision_order ⟨[5], true⟩ [⟨[], some "xyz"⟩]).2.2.2.1 "xyz"
      (by decide) (by decide) (by decide) (by decide) rfl,
    (C6_x11_decision_order ⟨[5], true⟩ [⟨[], none⟩]).2.2.2.2 (by decide) (by decide) rfl⟩

end Razer
